import Mathlib

/-!
Verification of the WebSocket connection manager of Ai-ARX/Arx-Wallet-Tracker
(`packages/core/src/services/websocket-manager.ts` together with
`packages/core/types/websocket.types.ts`).

The manager is shallowly embedded as a pure state machine: the mutable class
instance becomes the `Manager` structure, every method becomes a function from
`Manager` (plus the inputs the runtime supplies: the current clock value, the
random jitter draw, whether the underlying transport send throws) to a new
`Manager`, optionally paired with the externally observable events the method
produces (console output, handler invocations, the per-subscription
resubscription log lines, transport close calls).

Modelling conventions, each noted again at the definition it concerns:
* `Date.now()` values are natural numbers (milliseconds); each operation that
  reads the clock takes the reading as a `now` parameter.
* `generateMessageId` / `generateSubscriptionId` build ids from the clock and
  `Math.random()`; they are modelled by per-manager counters, preserving the
  property the source aims for (ids fresh per manager instance).
* `Math.random() * 1000` jitter is a `ℚ` parameter constrained to `[0, 1000)`
  where a property needs the range.
* A transport send that the source wraps in `try/catch` is given its outcome
  (throw or not) as a `Bool` parameter.
* User-registered message handlers and subscription callbacks are opaque to the
  manager; they are modelled by an identifier plus a flag saying whether the
  invocation throws, and an invocation is recorded as an observable event
  carrying the envelope the handler received.
-/

namespace ArxWs

/-- The `ConnectionStatus` enum from websocket.types.ts. -/
inductive ConnectionStatus
  | CONNECTING
  | CONNECTED
  | DISCONNECTED
  | RECONNECTING
  | ERROR
  | CLOSED
deriving DecidableEq, Repr

/-- The `MessageType` enum from websocket.types.ts. -/
inductive MessageType
  | SUBSCRIBE
  | UNSUBSCRIBE
  | DATA
  | ERROR
  | PING
  | PONG
  | ACK
  | BROADCAST
  | COMMAND
  | STATUS
deriving DecidableEq, Repr

/-- The `WebSocket.readyState` values of the transport handle. -/
inductive WsReadyState
  | CONNECTING
  | OPEN
  | CLOSING
  | CLOSED
deriving DecidableEq, Repr

/-- The payload of a message envelope. The source types payload as `any`; the
manager itself only ever reads `payload?.subscriptionId`, and constructs
payloads carrying a subscription id, the spread of a subscription request
(its `channel`), or a `timestamp` (PING/PONG). Those are the fields modelled. -/
structure MessagePayload where
  subscriptionId : Option String := none
  channel : Option String := none
  timestamp : Option Nat := none
  errCode : Option Nat := none
deriving DecidableEq, Repr

/-- The `WebSocketMessage` envelope from websocket.types.ts (metadata is optional
and never touched by the manager; omitted). -/
structure WebSocketMessage where
  id : String
  type : MessageType
  timestamp : Nat
  payload : MessagePayload
deriving DecidableEq, Repr

/-- The `SubscriptionRequest` from websocket.types.ts. Besides `channel`, the
request carries `params`, optional `filters` and `options`; the manager never
inspects them (they are only spread into the SUBSCRIBE payload), so only
`channel` is modelled. -/
structure SubscriptionRequest where
  channel : String
deriving DecidableEq, Repr

/-- The `SubscriptionState` from websocket.types.ts (`Date` values as ms). -/
structure SubscriptionState where
  id : String
  channel : String
  active : Bool
  createdAt : Nat
  lastMessage : Option Nat := none
  messageCount : Nat
  errorCount : Nat
deriving DecidableEq, Repr

/-- The `ConnectionStats` from websocket.types.ts. `latency` is
`Date.now() - pingTime`, a JS number subtraction, so it is an `Int`. -/
structure ConnectionStats where
  connectedAt : Option Nat := none
  disconnectedAt : Option Nat := none
  reconnectCount : Nat
  messagesSent : Nat
  messagesReceived : Nat
  bytesReceived : Nat
  bytesSent : Nat
  latency : Int
  uptime : Nat
deriving DecidableEq, Repr

/-- The `AuthType` enum from websocket.types.ts. -/
inductive AuthType
  | BEARER
  | API_KEY
  | BASIC
  | CUSTOM
  | NONE
deriving DecidableEq, Repr

/-- The `WebSocketAuth` from websocket.types.ts (credentials/customHeaders are
never read by the manager; omitted). -/
structure WebSocketAuth where
  type : AuthType
  token : Option String := none
  apiKey : Option String := none
deriving DecidableEq, Repr

/-- The `WebSocketConfig` from websocket.types.ts; the fields the manager reads.
`reconnectInterval` is a JS number entering a real-valued delay computation,
modelled as `ℚ`. -/
structure WebSocketConfig where
  url : String
  reconnectInterval : ℚ
  maxReconnectAttempts : Nat
  heartbeatInterval : Nat
  messageQueueSize : Nat
  authentication : Option WebSocketAuth := none
deriving DecidableEq, Repr

/-- The transport handle (`this.ws`). `sent` records the envelopes pushed
through `ws.send`, in order. -/
structure WsSocket where
  url : String
  readyState : WsReadyState
  sent : List WebSocketMessage
deriving DecidableEq, Repr

/-- A registered message handler. The manager stores opaque closures; the
model distinguishes the three default handlers installed by
`setupDefaultHandlers`, the latency closure installed by `sendPing` (which
captures the ping send time), and an arbitrary consumer handler, identified by
`uid` and characterised by whether invoking it throws. -/
inductive Handler
  | user (uid : Nat) (throws : Bool)
  | latency (pingTime : Nat)
  | defaultPing
  | defaultErr
  | defaultAck
deriving DecidableEq, Repr

/-- A per-subscription callback registered through `onSubscription`,
modelled like consumer handlers. -/
structure SubscriptionCallback where
  uid : Nat
  throws : Bool
deriving DecidableEq, Repr

/-- Externally observable events of a manager step: console output, consumer
handler/callback invocations (carrying what they were invoked with), the
per-subscription resubscription log line, and transport close calls. -/
inductive Event
  | consoleLog (text : String)
  | consoleError (text : String)
  | invokedUser (uid : Nat) (m : WebSocketMessage)
  | invokedCallback (uid : Nat) (sid : String)
  | resub (sid : String) (channel : String)
  | wsClose (code : Nat) (reason : String)
deriving DecidableEq, Repr

/-- The `WebSocketState` from websocket.types.ts. Its `messageQueue` field is
initialised to `[]` by `initializeState` and never used again (the class keeps
its own queue field); it is kept for fidelity. `lastErr` models `lastError`:
the source stores the raw error payload object there (an unchecked cast). -/
structure WebSocketState where
  status : ConnectionStatus
  connected : Bool
  subscriptions : List (String × SubscriptionState)
  messageQueue : List WebSocketMessage
  stats : ConnectionStats
  lastErr : Option MessagePayload := none
deriving DecidableEq, Repr

/-- JS `Map` lookup over an insertion-ordered association list. -/
def mapGet {κ α : Type} [DecidableEq κ] (m : List (κ × α)) (k : κ) : Option α :=
  match m with
  | [] => none
  | (k', v') :: rest => if k' = k then some v' else mapGet rest k

/-- JS `Map.set`: overwrite in place if the key exists (keeping its insertion
position), else append. -/
def mapSet {κ α : Type} [DecidableEq κ] (m : List (κ × α)) (k : κ) (v : α) :
    List (κ × α) :=
  match m with
  | [] => [(k, v)]
  | (k', v') :: rest => if k' = k then (k, v) :: rest else (k', v') :: mapSet rest k v

/-- JS `Map.delete`: remove the entry for the key, preserving the order of the
others. -/
def mapDelete {κ α : Type} [DecidableEq κ] (m : List (κ × α)) (k : κ) :
    List (κ × α) :=
  match m with
  | [] => []
  | (k', v') :: rest => if k' = k then rest else (k', v') :: mapDelete rest k

/-- The `WebSocketManager` instance: class fields of websocket-manager.ts.
The source's `connectionPool`, `performanceMetrics`, `circuitBreaker`,
`performanceTimer` and `compressionEnabled` fields are declared but never
transitioned by any code path (the circuit breaker in particular is
declared-but-unwired), so they are omitted. `msgCounter`/`subCounter` drive
the id generators (see module docstring). Timers are modelled by what they
hold: the scheduled reconnect delay, and the heartbeat interval. -/
structure Manager where
  config : WebSocketConfig
  ws : Option WsSocket
  state : WebSocketState
  reconnectTimer : Option ℚ := none
  heartbeatTimer : Option Nat := none
  messageHandlers : List (MessageType × List Handler)
  subscriptionCallbacks : List (String × SubscriptionCallback)
  messageQueue : List WebSocketMessage
  reconnectAttempts : Nat
  msgCounter : Nat
  subCounter : Nat
deriving DecidableEq, Repr

/-- The `generateMessageId` (source: clock + random base36; modelled by the
per-manager counter, see module docstring). -/
def generateMessageId (n : Nat) : String := "msg_" ++ toString n

/-- The `generateSubscriptionId` (same modelling as `generateMessageId`). -/
def generateSubscriptionId (n : Nat) : String := "sub_" ++ toString n

/-- The `isConnected()`: ws non-null and readyState OPEN. -/
def Manager.isConnected (s : Manager) : Bool :=
  match s.ws with
  | some w => w.readyState = WsReadyState.OPEN
  | none => false

/-- Tag string of a message type (the enum's string value). -/
def typeTag : MessageType → String
  | .SUBSCRIBE => "SUBSCRIBE"
  | .UNSUBSCRIBE => "UNSUBSCRIBE"
  | .DATA => "DATA"
  | .ERROR => "ERROR"
  | .PING => "PING"
  | .PONG => "PONG"
  | .ACK => "ACK"
  | .BROADCAST => "BROADCAST"
  | .COMMAND => "COMMAND"
  | .STATUS => "STATUS"

/-- The `serializeMessage` is `JSON.stringify(message)`. The manager only ever
uses the serialized string's `length`; no property below depends on the exact
bytes, so the rendering is modelled as a fixed-shape concatenation of the
envelope's fields. -/
def serializeMessage (m : WebSocketMessage) : String :=
  "\x7b id: " ++ m.id ++ ", type: " ++ typeTag m.type ++
    ", timestamp: " ++ toString m.timestamp ++ " \x7d"

/-- The `updateStatus`: set the status and recompute `uptime` from `connectedAt`
when a connect timestamp exists. -/
def updateStatus (s : Manager) (now : Nat) (status : ConnectionStatus) : Manager :=
  let stats := s.state.stats
  let stats :=
    match stats.connectedAt with
    | some c => { stats with uptime := now - c }
    | none => stats
  { s with state := { s.state with status := status, stats := stats } }

/-- The `queueMessage`: evict the oldest entry (`shift`) when the queue has
reached `messageQueueSize`, then append (`push`). -/
def queueMessage (cap : Nat) (q : List WebSocketMessage) (m : WebSocketMessage) :
    List WebSocketMessage :=
  let q := if cap ≤ q.length then q.tail else q
  q ++ [m]

/-- Outcome of `sendMessage`: transmitted, appended to the outbound queue, or
rejected because the transport send threw. -/
inductive SendOutcome
  | sent
  | queued
  | failed
deriving DecidableEq, Repr

/-- The `sendMessage`: when not connected, queue the envelope and resolve; when
connected, serialize and transmit, bumping `messagesSent`/`bytesSent`, or
reject if the send throws (`sendOk = false` models the throw, which the
source catches and turns into a rejected promise). -/
def sendMessage (s : Manager) (m : WebSocketMessage) (sendOk : Bool) :
    Manager × SendOutcome :=
  match s.ws with
  | some w =>
    if w.readyState = WsReadyState.OPEN then
      if sendOk then
        let data := serializeMessage m
        ({ s with
            ws := some { w with sent := w.sent ++ [m] },
            state := { s.state with stats := { s.state.stats with
              messagesSent := s.state.stats.messagesSent + 1,
              bytesSent := s.state.stats.bytesSent + data.length } } },
          SendOutcome.sent)
      else (s, SendOutcome.failed)
    else
      ({ s with messageQueue := queueMessage s.config.messageQueueSize s.messageQueue m },
        SendOutcome.queued)
  | none =>
    ({ s with messageQueue := queueMessage s.config.messageQueueSize s.messageQueue m },
      SendOutcome.queued)

/-- The `onMessage`: append the handler to the (possibly absent) list for the
type and store it back. -/
def onMessage (s : Manager) (type : MessageType) (handler : Handler) : Manager :=
  let handlers := (mapGet s.messageHandlers type).getD []
  { s with messageHandlers := mapSet s.messageHandlers type (handlers ++ [handler]) }

/-- The `onSubscription`: register the per-subscription callback. -/
def onSubscription (s : Manager) (subscriptionId : String)
    (callback : SubscriptionCallback) : Manager :=
  { s with subscriptionCallbacks := mapSet s.subscriptionCallbacks subscriptionId callback }

/-- The `initializeState`. -/
def initializeState : WebSocketState :=
  { status := ConnectionStatus.DISCONNECTED
    connected := false
    subscriptions := []
    messageQueue := []
    stats :=
      { reconnectCount := 0
        messagesSent := 0
        messagesReceived := 0
        bytesReceived := 0
        bytesSent := 0
        latency := 0
        uptime := 0 } }

/-- The `setupDefaultHandlers`: PING auto-pong, ERROR recording, ACK logging. -/
def setupDefaultHandlers (s : Manager) : Manager :=
  let s := onMessage s MessageType.PING Handler.defaultPing
  let s := onMessage s MessageType.ERROR Handler.defaultErr
  onMessage s MessageType.ACK Handler.defaultAck

/-- The constructor `new WebSocketManager(config)`. -/
def Manager.new (config : WebSocketConfig) : Manager :=
  setupDefaultHandlers
    { config := config
      ws := none
      state := initializeState
      reconnectTimer := none
      heartbeatTimer := none
      messageHandlers := []
      subscriptionCallbacks := []
      messageQueue := []
      reconnectAttempts := 0
      msgCounter := 0
      subCounter := 0 }

/-- Append a query parameter the way `URL.searchParams.append` renders into
`url.toString()` for a well-formed base URL. -/
def appendQueryParam (u k v : String) : String :=
  u ++ (if u.contains '?' then "&" else "?") ++ k ++ "=" ++ v

/-- The `buildConnectionUrl`: base URL plus the authentication query parameter for
the API_KEY and BEARER schemes. -/
def buildConnectionUrl (config : WebSocketConfig) : String :=
  match config.authentication with
  | none => config.url
  | some auth =>
    match auth.type with
    | AuthType.API_KEY => appendQueryParam config.url "apiKey" (auth.apiKey.getD "")
    | AuthType.BEARER => appendQueryParam config.url "token" (auth.token.getD "")
    | _ => config.url

/-- The synchronous body of `connect()`: set status CONNECTING and install a
fresh transport (readyState CONNECTING until the open event). `ctorOk = false`
models the `new URL`/`new WebSocket` constructor throwing, which the source
catches: status becomes ERROR and the promise rejects (note `this.ws` keeps
its previous value on that path). The promise resolution on open / the event
wiring are the separate event functions below. -/
def connectStart (s : Manager) (now : Nat) (ctorOk : Bool) : Manager :=
  let s := updateStatus s now ConnectionStatus.CONNECTING
  if ctorOk then
    { s with ws := some { url := buildConnectionUrl s.config
                          readyState := WsReadyState.CONNECTING
                          sent := [] } }
  else
    updateStatus s now ConnectionStatus.ERROR

/-- The `clearTimers`. -/
def clearTimers (s : Manager) : Manager :=
  { s with reconnectTimer := none, heartbeatTimer := none }

/-- The `disconnect()`: clear timers, close the transport with the normal-closure
code when one exists, null it out, and set DISCONNECTED. The close call is the
observable event. -/
def disconnect (s : Manager) (now : Nat) : Manager × List Event :=
  let s := clearTimers s
  match s.ws with
  | some _ =>
    (updateStatus { s with ws := none } now ConnectionStatus.DISCONNECTED,
      [Event.wsClose 1000 "Client disconnect"])
  | none => (updateStatus s now ConnectionStatus.DISCONNECTED, [])

/-- The `shouldReconnect`: attempt count below the configured maximum. -/
def shouldReconnect (s : Manager) : Bool :=
  s.reconnectAttempts < s.config.maxReconnectAttempts

/-- The `calculateReconnectDelay`: exponential backoff with jitter, capped at
30000 ms. `jitter` stands for the `Math.random() * 1000` draw. -/
def calculateReconnectDelay (reconnectInterval : ℚ) (reconnectAttempts : Nat)
    (jitter : ℚ) : ℚ :=
  min (reconnectInterval * 2 ^ reconnectAttempts + jitter) 30000

/-- The `scheduleReconnect`: move to RECONNECTING and arm the reconnect timer with
the computed delay. -/
def scheduleReconnect (s : Manager) (now : Nat) (jitter : ℚ) : Manager :=
  let s := updateStatus s now ConnectionStatus.RECONNECTING
  let d := calculateReconnectDelay s.config.reconnectInterval s.reconnectAttempts jitter
  { s with reconnectTimer := some d }

/-- The body of the `setTimeout` armed by `scheduleReconnect`: bump the attempt
counters and call `connect()` again. -/
def reconnectTimerFire (s : Manager) (now : Nat) (ctorOk : Bool) : Manager :=
  let s :=
    { s with
        reconnectTimer := none
        reconnectAttempts := s.reconnectAttempts + 1
        state := { s.state with stats := { s.state.stats with
          reconnectCount := s.state.stats.reconnectCount + 1 } } }
  connectStart s now ctorOk

/-- The `handleClose`: DISCONNECTED, record disconnect timestamp, stop timers,
then schedule a reconnect when the close was abnormal and attempts remain. -/
def handleClose (s : Manager) (code : Nat) (now : Nat) (jitter : ℚ) : Manager :=
  let s := updateStatus s now ConnectionStatus.DISCONNECTED
  let s := { s with state := { s.state with
              connected := false
              stats := { s.state.stats with disconnectedAt := some now } } }
  let s := clearTimers s
  if code ≠ 1000 ∧ shouldReconnect s then scheduleReconnect s now jitter else s

/-- The `handleError` (transport error event): record a recoverable 1006 error and
move to ERROR status. -/
def handleError (s : Manager) (now : Nat) : Manager :=
  let s := { s with state := { s.state with lastErr := some { errCode := some 1006 } } }
  updateStatus s now ConnectionStatus.ERROR

/-- The `startHeartbeat`: arm the interval timer. -/
def startHeartbeat (s : Manager) : Manager :=
  { s with heartbeatTimer := some s.config.heartbeatInterval }

/-- The `sendPong`: reply to a remote PING. -/
def sendPong (s : Manager) (now : Nat) (sendOk : Bool) : Manager :=
  let message : WebSocketMessage :=
    { id := generateMessageId s.msgCounter
      type := MessageType.PONG
      timestamp := now
      payload := { timestamp := some now } }
  let s := { s with msgCounter := s.msgCounter + 1 }
  (sendMessage s message sendOk).1

/-- The `sendPing`: send a PING carrying the send time; when the send promise
resolves (transmitted or queued — both resolve in the source), register a
fresh PONG handler closing over that send time. A rejected send registers
nothing. -/
def sendPing (s : Manager) (now : Nat) (sendOk : Bool) : Manager :=
  let pingTime := now
  let message : WebSocketMessage :=
    { id := generateMessageId s.msgCounter
      type := MessageType.PING
      timestamp := pingTime
      payload := { timestamp := some pingTime } }
  let s := { s with msgCounter := s.msgCounter + 1 }
  let (s, outcome) := sendMessage s message sendOk
  if outcome = SendOutcome.failed then s
  else onMessage s MessageType.PONG (Handler.latency pingTime)

/-- One firing of the heartbeat interval: ping only while connected. -/
def heartbeatTick (s : Manager) (now : Nat) (sendOk : Bool) : Manager :=
  if s.isConnected then sendPing s now sendOk else s

/-- The `handleErrorMessage` (ERROR-typed envelope): record the payload as the
last error and bump the addressed subscription's error count when
applicable. -/
def handleErrorMessage (s : Manager) (m : WebSocketMessage) : Manager :=
  let s := { s with state := { s.state with lastErr := some m.payload } }
  match m.payload.subscriptionId with
  | some sid =>
    match mapGet s.state.subscriptions sid with
    | some subscription =>
      let subs := mapSet s.state.subscriptions sid
        { subscription with errorCount := subscription.errorCount + 1 }
      { s with state := { s.state with subscriptions := subs } }
    | none => s
  | none => s

/-- Invoke one registered handler on an envelope. Returns the new manager
state, the events the invocation produced, and whether it threw. A consumer
handler is invoked (its invocation event carries the envelope) and then throws
exactly when its flag says so; the latency closure sets
`stats.latency = now - pingTime`; the default handlers behave per
`setupDefaultHandlers`. -/
def runHandler (s : Manager) (h : Handler) (m : WebSocketMessage) (now : Nat)
    (sendOk : Bool) : Manager × List Event × Bool :=
  match h with
  | Handler.user uid throws => (s, [Event.invokedUser uid m], throws)
  | Handler.latency pingTime =>
    ({ s with state := { s.state with stats := { s.state.stats with
        latency := (now : Int) - (pingTime : Int) } } }, [], false)
  | Handler.defaultPing => (sendPong s now sendOk, [], false)
  | Handler.defaultErr => (handleErrorMessage s m, [Event.consoleError "Server error"], false)
  | Handler.defaultAck => (s, [Event.consoleLog "Message acknowledged"], false)

/-- The `handlers.forEach(handler => handler(message))`: invoke in registration
order; an exception propagates out of the loop immediately, skipping the
remaining handlers. -/
def dispatchHandlers (s : Manager) (hs : List Handler) (m : WebSocketMessage)
    (now : Nat) (sendOk : Bool) : Manager × List Event × Bool :=
  match hs with
  | [] => (s, [], false)
  | h :: rest =>
    let r := runHandler s h m now sendOk
    if r.2.2 then (r.1, r.2.1, true)
    else
      let r' := dispatchHandlers r.1 rest m now sendOk
      (r'.1, r.2.1 ++ r'.2.1, r'.2.2)

/-- The update of per-subscription counters at the top of `handleMessage`. -/
def noteSubscriptionActivity (s : Manager) (sid? : Option String) (now : Nat) :
    Manager :=
  match sid? with
  | some sid =>
    match mapGet s.state.subscriptions sid with
    | some subscription =>
      let subs := mapSet s.state.subscriptions sid
        { subscription with
            lastMessage := some now
            messageCount := subscription.messageCount + 1 }
      { s with state := { s.state with subscriptions := subs } }
    | none => s
  | none => s

/-- An inbound transport message event: `data = none` models input on which
`deserializeMessage` (`JSON.parse`) throws; `length` is `event.data.length`. -/
structure RawMessageEvent where
  data : Option WebSocketMessage
  length : Nat
deriving DecidableEq, Repr

/-- The `handleMessage`: deserialize, bump receive statistics, update the
addressed subscription's counters, invoke the type's handlers in order, then
the per-subscription DATA callback. The whole body is wrapped in one
`try/catch`, so an exception anywhere aborts the remainder of the body and is
logged. -/
def handleMessage (s : Manager) (event : RawMessageEvent) (now : Nat)
    (sendOk : Bool) : Manager × List Event :=
  match event.data with
  | none => (s, [Event.consoleError "Error handling message"])
  | some message =>
    let s := { s with state := { s.state with stats := { s.state.stats with
        messagesReceived := s.state.stats.messagesReceived + 1
        bytesReceived := s.state.stats.bytesReceived + event.length } } }
    let s := noteSubscriptionActivity s message.payload.subscriptionId now
    let handlers := (mapGet s.messageHandlers message.type).getD []
    let r := dispatchHandlers s handlers message now sendOk
    if r.2.2 then (r.1, r.2.1 ++ [Event.consoleError "Error handling message"])
    else
      let s := r.1
      let evs := r.2.1
      if message.type = MessageType.DATA then
        match message.payload.subscriptionId with
        | some sid =>
          match mapGet s.subscriptionCallbacks sid with
          | some callback =>
            if callback.throws then
              (s, evs ++ [Event.invokedCallback callback.uid sid,
                          Event.consoleError "Error handling message"])
            else (s, evs ++ [Event.invokedCallback callback.uid sid])
          | none => (s, evs)
        | none => (s, evs)
      else (s, evs)

/-- The loop body chain of `flushMessageQueue`: pass each pending envelope
through `sendMessage`; `sendOkAt i` is the outcome of the i-th transmission. -/
def flushLoop (s : Manager) (pending : List WebSocketMessage)
    (sendOkAt : Nat → Bool) (i : Nat) : Manager :=
  match pending with
  | [] => s
  | m :: rest => flushLoop (sendMessage s m (sendOkAt i)).1 rest sendOkAt (i + 1)

/-- The `flushMessageQueue`: the source shifts from `this.messageQueue` until it
is empty, handing each envelope to `sendMessage` (without awaiting it). At its
only call site, `handleOpen`, the transport is open, so every envelope goes
through the send path exactly once; modelled as a fold over the snapshot of
the queue. -/
def flushMessageQueue (s : Manager) (sendOkAt : Nat → Bool) : Manager :=
  flushLoop { s with messageQueue := [] } s.messageQueue sendOkAt 0

/-- The `resubscribeAll`: walk the registry and emit one resubscription log line
per subscription still marked active. The emitted signal is modelled as an
event carrying the registry entry it was emitted for. -/
def resubscribeAll (s : Manager) : List Event :=
  (s.state.subscriptions.filter (fun p => p.2.active)).map
    (fun p => Event.resub p.1 p.2.channel)

/-- The `handleOpen`: CONNECTED, record connect timestamp, reset the attempt
counter, start the heartbeat, flush the outbound queue, resubscribe. -/
def handleOpen (s : Manager) (now : Nat) (sendOkAt : Nat → Bool) :
    Manager × List Event :=
  let s := updateStatus s now ConnectionStatus.CONNECTED
  let s := { s with state := { s.state with
              connected := true
              stats := { s.state.stats with connectedAt := some now } } }
  let s := { s with reconnectAttempts := 0 }
  let s := startHeartbeat s
  let s := flushMessageQueue s sendOkAt
  (s, Event.consoleLog "WebSocket connected" :: resubscribeAll s)

/-- The `subscribe(request)`: fresh subscription id, SUBSCRIBE envelope carrying
the id and the request (`...request` spreads `channel` into the payload),
`await sendMessage`, and only then the registry insertion — so a rejected send
propagates out of `subscribe` before the subscription is recorded. Returns
the post-state and either the subscription id or the send rejection. -/
def subscribe (s : Manager) (request : SubscriptionRequest) (now : Nat)
    (sendOk : Bool) : Manager × Except Unit String :=
  let subscriptionId := generateSubscriptionId s.subCounter
  let msgId := generateMessageId s.msgCounter
  let s := { s with subCounter := s.subCounter + 1, msgCounter := s.msgCounter + 1 }
  let message : WebSocketMessage :=
    { id := msgId
      type := MessageType.SUBSCRIBE
      timestamp := now
      payload := { subscriptionId := some subscriptionId
                   channel := some request.channel } }
  let r := sendMessage s message sendOk
  if r.2 = SendOutcome.failed then (r.1, Except.error ())
  else
    let subs := mapSet r.1.state.subscriptions subscriptionId
      { id := subscriptionId
        channel := request.channel
        active := true
        createdAt := now
        messageCount := 0
        errorCount := 0 }
    ({ r.1 with state := { r.1.state with subscriptions := subs } },
      Except.ok subscriptionId)

/-- Failure modes of `unsubscribe`: the thrown not-found error, or the
propagated send rejection. -/
inductive UnsubFail
  | notFound (sid : String)
  | sendFailed
deriving DecidableEq, Repr

/-- The `unsubscribe(id)`: throw not-found when the id is absent; otherwise send
an UNSUBSCRIBE envelope (`await`), then mark the subscription inactive and
delete it from the registry. A rejected send propagates before the
mark/delete. -/
def unsubscribe (s : Manager) (subscriptionId : String) (now : Nat)
    (sendOk : Bool) : Manager × Option UnsubFail :=
  match mapGet s.state.subscriptions subscriptionId with
  | none => (s, some (UnsubFail.notFound subscriptionId))
  | some subscription =>
    let message : WebSocketMessage :=
      { id := generateMessageId s.msgCounter
        type := MessageType.UNSUBSCRIBE
        timestamp := now
        payload := { subscriptionId := some subscriptionId } }
    let s := { s with msgCounter := s.msgCounter + 1 }
    let r := sendMessage s message sendOk
    if r.2 = SendOutcome.failed then (r.1, some UnsubFail.sendFailed)
    else
      let subs := mapSet r.1.state.subscriptions subscriptionId
        { subscription with active := false }
      let subs := mapDelete subs subscriptionId
      ({ r.1 with state := { r.1.state with subscriptions := subs } }, none)

/-- The `enqueueAll`: the queue after a sequence of `queueMessage` calls. -/
def enqueueAll (cap : Nat) (q : List WebSocketMessage)
    (msgs : List WebSocketMessage) : List WebSocketMessage :=
  msgs.foldl (queueMessage cap) q

/-- A sequence of `sendMessage` calls, all with a non-throwing transport. -/
def sendAll (s : Manager) (msgs : List WebSocketMessage) : Manager :=
  msgs.foldl (fun s m => (sendMessage s m true).1) s

/-- A sequence of `sendPing` calls at the given clock readings, all with a
non-throwing transport. -/
def sendPings (s : Manager) (times : List Nat) : Manager :=
  times.foldl (fun s t => sendPing s t true) s

/-- The transport handshake completing: the environment flips the socket's
readyState to OPEN (this is what has happened by the time the source's
`onopen` callback — `handleOpen` — fires). -/
def transportBecomesOpen (s : Manager) : Manager :=
  { s with ws := s.ws.map (fun w => { w with readyState := WsReadyState.OPEN }) }

/-! ### Association-list lemmas (JS `Map` model) -/

theorem mapGet_mapSet_self {κ α : Type} [DecidableEq κ]
    (m : List (κ × α)) (k : κ) (v : α) : mapGet (mapSet m k v) k = some v := by
  induction m with
  | nil => simp [mapGet, mapSet]
  | cons hd tl ih =>
    obtain ⟨a, b⟩ := hd
    by_cases h : a = k
    · simp [mapGet, mapSet, h]
    · simp [mapGet, mapSet, h, ih]

theorem mapGet_mapSet_ne {κ α : Type} [DecidableEq κ]
    (m : List (κ × α)) (k k' : κ) (v : α) (h : k ≠ k') :
    mapGet (mapSet m k v) k' = mapGet m k' := by
  induction m with
  | nil => simp [mapGet, mapSet, h]
  | cons hd tl ih =>
    obtain ⟨a, b⟩ := hd
    by_cases hk : a = k
    · simp [mapGet, mapSet, hk, h]
    · simp [mapGet, mapSet, hk, ih]

theorem mapGet_mapDelete_ne {κ α : Type} [DecidableEq κ]
    (m : List (κ × α)) (k k' : κ) (h : k ≠ k') :
    mapGet (mapDelete m k) k' = mapGet m k' := by
  induction m with
  | nil => simp [mapDelete]
  | cons hd tl ih =>
    obtain ⟨a, b⟩ := hd
    by_cases hk : a = k
    · simp [mapGet, mapDelete, hk, h]
    · simp [mapGet, mapDelete, hk, ih]

theorem mapGet_eq_none_of_not_mem {κ α : Type} [DecidableEq κ]
    (m : List (κ × α)) (k : κ) (h : k ∉ m.map Prod.fst) : mapGet m k = none := by
  induction m with
  | nil => simp [mapGet]
  | cons hd tl ih =>
    obtain ⟨a, b⟩ := hd
    simp only [List.map_cons, List.mem_cons] at h
    push_neg at h
    have hne : ¬ a = k := fun hh => h.1 hh.symm
    simp [mapGet, hne, ih h.2]

theorem mapGet_mapDelete_self {κ α : Type} [DecidableEq κ]
    (m : List (κ × α)) (k : κ) (hnd : (m.map Prod.fst).Nodup) :
    mapGet (mapDelete m k) k = none := by
  induction m with
  | nil => simp [mapGet, mapDelete]
  | cons hd tl ih =>
    obtain ⟨a, b⟩ := hd
    simp only [List.map_cons, List.nodup_cons] at hnd
    by_cases hk : a = k
    · simpa [mapDelete, hk] using mapGet_eq_none_of_not_mem tl k (hk ▸ hnd.1)
    · simp [mapGet, mapDelete, hk, ih hnd.2]

theorem mem_keys_mapSet {κ α : Type} [DecidableEq κ]
    (m : List (κ × α)) (k x : κ) (v : α)
    (h : x ∈ (mapSet m k v).map Prod.fst) : x = k ∨ x ∈ m.map Prod.fst := by
  induction m with
  | nil =>
    simp [mapSet] at h
    exact Or.inl h
  | cons hd tl ih =>
    obtain ⟨a, b⟩ := hd
    by_cases hk : a = k
    · rw [show mapSet ((a, b) :: tl) k v = (k, v) :: tl from by simp [mapSet, hk]] at h
      simp only [List.map_cons, List.mem_cons] at h ⊢
      tauto
    · rw [show mapSet ((a, b) :: tl) k v = (a, b) :: mapSet tl k v from by
          simp [mapSet, hk]] at h
      simp only [List.map_cons, List.mem_cons] at h ⊢
      rcases h with h | h
      · exact Or.inr (Or.inl h)
      · rcases ih h with h' | h'
        · exact Or.inl h'
        · exact Or.inr (Or.inr h')

theorem mapSet_keys_nodup {κ α : Type} [DecidableEq κ]
    (m : List (κ × α)) (k : κ) (v : α) (hnd : (m.map Prod.fst).Nodup) :
    ((mapSet m k v).map Prod.fst).Nodup := by
  induction m with
  | nil => simp [mapSet]
  | cons hd tl ih =>
    obtain ⟨a, b⟩ := hd
    simp only [List.map_cons, List.nodup_cons] at hnd
    by_cases hk : a = k
    · subst hk
      simpa [mapSet] using hnd
    · rw [show mapSet ((a, b) :: tl) k v = (a, b) :: mapSet tl k v from by
          simp [mapSet, hk]]
      simp only [List.map_cons, List.nodup_cons]
      refine ⟨?_, ih hnd.2⟩
      intro hmem
      rcases mem_keys_mapSet tl k a v hmem with h' | h'
      · exact hk h'
      · exact hnd.1 h'

/-! ### Outbound queue lemmas -/

theorem queueMessage_length (cap : Nat) (q : List WebSocketMessage)
    (m : WebSocketMessage) (hc : 1 ≤ cap) (hq : q.length ≤ cap) :
    (queueMessage cap q m).length ≤ cap := by
  by_cases h : cap ≤ q.length
  · simp only [queueMessage, if_pos h, List.length_append, List.length_tail,
      List.length_cons, List.length_nil]
    omega
  · simp only [queueMessage, if_neg h, List.length_append, List.length_cons,
      List.length_nil]
    omega

theorem enqueueAll_eq (cap : Nat) (hc : 1 ≤ cap) :
    ∀ (msgs q : List WebSocketMessage), q.length ≤ cap →
      enqueueAll cap q msgs = (q ++ msgs).drop (q.length + msgs.length - cap) := by
  intro msgs
  induction msgs with
  | nil =>
    intro q hq
    simp only [enqueueAll, List.foldl_nil, List.append_nil, List.length_nil, Nat.add_zero]
    rw [Nat.sub_eq_zero_of_le hq, List.drop_zero]
  | cons m rest ih =>
    intro q hq
    by_cases h : cap ≤ q.length
    · have hql : q.length = cap := le_antisymm hq h
      cases q with
      | nil =>
        exfalso
        simp only [List.length_nil] at hql
        omega
      | cons a q' =>
        have hqm : queueMessage cap (a :: q') m = q' ++ [m] := by
          show (if cap ≤ (a :: q').length then (a :: q').tail else a :: q') ++ [m]
              = q' ++ [m]
          rw [if_pos h]
          rfl
        have hlen : (q' ++ [m]).length ≤ cap := by
          simp only [List.length_cons] at hql
          simp only [List.length_append, List.length_cons, List.length_nil]
          omega
        calc enqueueAll cap (a :: q') (m :: rest)
            = enqueueAll cap (q' ++ [m]) rest := by
              rw [show enqueueAll cap (a :: q') (m :: rest)
                    = enqueueAll cap (queueMessage cap (a :: q') m) rest from rfl, hqm]
          _ = ((q' ++ [m]) ++ rest).drop ((q' ++ [m]).length + rest.length - cap) :=
              ih _ hlen
          _ = (q' ++ m :: rest).drop rest.length := by
              have hn : (q' ++ [m]).length + rest.length - cap = rest.length := by
                simp only [List.length_cons] at hql
                simp only [List.length_append, List.length_cons, List.length_nil]
                omega
              rw [hn, List.append_assoc]
              rfl
          _ = ((a :: q') ++ m :: rest).drop ((a :: q').length + (m :: rest).length - cap) := by
              have hn : (a :: q').length + (m :: rest).length - cap = rest.length + 1 := by
                simp only [List.length_cons] at hql
                simp only [List.length_cons]
                omega
              rw [hn, List.cons_append, List.drop_succ_cons]
    · have hqm : queueMessage cap q m = q ++ [m] := by
        show (if cap ≤ q.length then q.tail else q) ++ [m] = q ++ [m]
        rw [if_neg h]
      have hlen : (q ++ [m]).length ≤ cap := by
        simp only [List.length_append, List.length_cons, List.length_nil]
        omega
      calc enqueueAll cap q (m :: rest)
          = enqueueAll cap (q ++ [m]) rest := by
            rw [show enqueueAll cap q (m :: rest)
                  = enqueueAll cap (queueMessage cap q m) rest from rfl, hqm]
        _ = ((q ++ [m]) ++ rest).drop ((q ++ [m]).length + rest.length - cap) :=
            ih _ hlen
        _ = (q ++ m :: rest).drop (q.length + (m :: rest).length - cap) := by
            have hn : (q ++ [m]).length + rest.length - cap
                = q.length + (m :: rest).length - cap := by
              simp only [List.length_append, List.length_cons, List.length_nil]
              omega
            rw [hn, List.append_assoc]
            rfl

theorem sendMessage_no_ws (s : Manager) (m : WebSocketMessage) (ok : Bool)
    (h : s.ws = none) :
    (sendMessage s m ok).1
      = { s with messageQueue := queueMessage s.config.messageQueueSize s.messageQueue m } := by
  simp [sendMessage, h]

theorem sendAll_no_ws (msgs : List WebSocketMessage) :
    ∀ s : Manager, s.ws = none →
      sendAll s msgs
        = { s with messageQueue := enqueueAll s.config.messageQueueSize s.messageQueue msgs } := by
  induction msgs with
  | nil =>
    intro s h
    rfl
  | cons m rest ih =>
    intro s h
    show sendAll (sendMessage s m true).1 rest = _
    rw [sendMessage_no_ws s m true h]
    rw [ih { s with messageQueue := queueMessage s.config.messageQueueSize s.messageQueue m } h]
    rfl

/-! ### Concrete fixtures used by witnesses and counterexamples -/

def testConfig : WebSocketConfig :=
  { url := "ws://example"
    reconnectInterval := 100
    maxReconnectAttempts := 3
    heartbeatInterval := 30
    messageQueueSize := 2 }

def testManager : Manager := Manager.new testConfig

/-- A manager that has connected and seen its transport open. -/
def openManager : Manager :=
  (handleOpen (transportBecomesOpen (connectStart testManager 1 true)) 2 (fun _ => true)).1

def testMsg : WebSocketMessage :=
  { id := "m1", type := MessageType.DATA, timestamp := 0, payload := {} }

def zeroCapManager : Manager := Manager.new { testConfig with messageQueueSize := 0 }

/-- The `openManager` after one successful `subscribe` on channel "ch". -/
def subManager : Manager := (subscribe openManager { channel := "ch" } 5 true).1

/-- The SUBSCRIBE envelope that `subManager`'s subscribe call sent. -/
def subEnvelope : WebSocketMessage :=
  { id := "msg_0"
    type := MessageType.SUBSCRIBE
    timestamp := 5
    payload := { subscriptionId := some "sub_0", channel := some "ch" } }

def subSocket : WsSocket :=
  { url := "ws://example", readyState := WsReadyState.OPEN, sent := [subEnvelope] }

/-- The `subManager` with two consumer handlers registered (in order) for DATA,
the first of which throws. -/
def handlerManager : Manager :=
  onMessage (onMessage subManager MessageType.DATA (Handler.user 1 true))
    MessageType.DATA (Handler.user 2 false)

def dataMsg : WebSocketMessage :=
  { id := "d1", type := MessageType.DATA, timestamp := 7, payload := {} }

/-- The `subManager` after an abnormal closure, with one envelope pending in the
outbound queue, its transport about to reopen. -/
def reopenManager : Manager :=
  { handleClose subManager 1006 30 0 with messageQueue := [testMsg] }

def pongEnvelope : WebSocketMessage :=
  { id := "p1", type := MessageType.PONG, timestamp := 25,
    payload := { timestamp := some 25 } }

/-- The `openManager`'s transport handle. -/
def openSocket : WsSocket :=
  { url := "ws://example", readyState := WsReadyState.OPEN, sent := [] }

/-! ### Claim C8 -/

/-- C8: for every attempt number the computed reconnect delay equals
min(30000 ms, reconnectInterval × 2^attempt + jitter) with the jitter drawn
from [0, 1000); and the unjittered component reconnectInterval × 2^attempt
capped at 30000 never exceeds 30000 and is non-decreasing in the attempt
number (in particular over attempts 0..10) until the cap is reached. -/
theorem c8_backoff (base jitter : ℚ) (a : ℕ)
    (hb : 0 ≤ base) (hj0 : 0 ≤ jitter) (hj1 : jitter < 1000) :
    calculateReconnectDelay base a jitter = min 30000 (base * 2 ^ a + jitter)
    ∧ (∀ b : ℕ, min (base * 2 ^ b) 30000 ≤ 30000)
    ∧ (∀ b c : ℕ, b ≤ c → c ≤ 10 →
        min (base * 2 ^ b) 30000 ≤ min (base * 2 ^ c) 30000) := by
  refine ⟨?_, fun b => min_le_right _ _, fun b c hbc _ => ?_⟩
  · show min (base * 2 ^ a + jitter) 30000 = min 30000 (base * 2 ^ a + jitter)
    exact min_comm _ _
  · exact min_le_min (mul_le_mul_of_nonneg_left (pow_le_pow_right₀ one_le_two hbc) hb) le_rfl

theorem c8_backoff_witness :
    ((0 : ℚ) ≤ 100 ∧ (0 : ℚ) ≤ 500 ∧ (500 : ℚ) < 1000)
    ∧ calculateReconnectDelay 100 3 500 = min 30000 (100 * 2 ^ 3 + 500) := by
  refine ⟨⟨by norm_num, by norm_num, by norm_num⟩, ?_⟩
  exact (c8_backoff 100 500 3 (by norm_num) (by norm_num) (by norm_num)).1

/-! ### Claim C4 -/

/-- C4 counterexample: with configured capacity `messageQueueSize = 0`, one
envelope enqueued while disconnected leaves the queue at length 1, exceeding
the capacity — the claimed invariant `length ≤ capacity` fails at capacity 0
(the shift-before-push eviction cannot keep an appended queue at length 0). -/
theorem c4_counterexample :
    zeroCapManager.config.messageQueueSize = 0
    ∧ zeroCapManager.isConnected = false
    ∧ ¬ ((sendMessage zeroCapManager testMsg true).1.messageQueue.length
          ≤ zeroCapManager.config.messageQueueSize) := by
  decide

/-- C4 (amended: for every configured capacity ≥ 1): enqueuing capacity + k
envelopes (k > 0) while the connection is not open keeps the queue length at
most the capacity at every point, and afterwards the queue holds exactly the
capacity most-recently-enqueued envelopes in arrival order. -/
theorem c4_bounded_queue (cap k : ℕ) (msgs : List WebSocketMessage)
    (hc : 1 ≤ cap) (hlen : msgs.length = cap + k) (hk : 0 < k) :
    enqueueAll cap [] msgs = msgs.drop k
    ∧ (enqueueAll cap [] msgs).length = cap
    ∧ (∀ i, (enqueueAll cap [] (msgs.take i)).length ≤ cap)
    ∧ (∀ s : Manager, s.ws = none → s.config.messageQueueSize = cap →
        s.messageQueue = [] → (sendAll s msgs).messageQueue = msgs.drop k) := by
  have hmain : enqueueAll cap [] msgs = msgs.drop k := by
    rw [enqueueAll_eq cap hc msgs [] (by simp)]
    simp only [List.nil_append, List.length_nil, Nat.zero_add]
    congr 1
    omega
  refine ⟨hmain, ?_, ?_, ?_⟩
  · rw [hmain, List.length_drop]
    omega
  · intro i
    rw [enqueueAll_eq cap hc (msgs.take i) [] (by simp)]
    simp only [List.nil_append, List.length_nil, Nat.zero_add]
    rw [List.length_drop]
    omega
  · intro s hws hcap hq
    rw [sendAll_no_ws msgs s hws]
    show enqueueAll s.config.messageQueueSize s.messageQueue msgs = msgs.drop k
    rw [hcap, hq, hmain]

theorem c4_bounded_queue_witness :
    (1 ≤ 2
      ∧ ([testMsg, dataMsg, pongEnvelope] : List WebSocketMessage).length = 2 + 1
      ∧ 0 < 1)
    ∧ enqueueAll 2 [] [testMsg, dataMsg, pongEnvelope] = [dataMsg, pongEnvelope] := by
  refine ⟨⟨by decide, by decide, by decide⟩, ?_⟩
  rw [(c4_bounded_queue 2 1 [testMsg, dataMsg, pongEnvelope]
    (by decide) (by decide) (by decide)).1]
  rfl

/-! ### Claim C7 -/

/-- C7: disconnect() from any state cancels both timers, closes the transport
with the normal-closure code (exactly when a transport exists), sets
DISCONNECTED unconditionally, and a second disconnect() yields the same
observable state (DISCONNECTED, no timers, no transport) — with the same
clock reading, the manager state is literally unchanged and no further close
is issued. -/
theorem c7_disconnect_idempotent (s : Manager) (t₁ t₂ : ℕ) :
    (disconnect s t₁).1.state.status = ConnectionStatus.DISCONNECTED
    ∧ (disconnect s t₁).1.reconnectTimer = none
    ∧ (disconnect s t₁).1.heartbeatTimer = none
    ∧ (disconnect s t₁).1.ws = none
    ∧ (disconnect s t₁).2
        = (if s.ws.isSome then [Event.wsClose 1000 "Client disconnect"] else [])
    ∧ (disconnect (disconnect s t₁).1 t₂).1.state.status = ConnectionStatus.DISCONNECTED
    ∧ (disconnect (disconnect s t₁).1 t₂).1.reconnectTimer = none
    ∧ (disconnect (disconnect s t₁).1 t₂).1.heartbeatTimer = none
    ∧ (disconnect (disconnect s t₁).1 t₂).1.ws = none
    ∧ (disconnect (disconnect s t₁).1 t₂).2 = []
    ∧ disconnect (disconnect s t₁).1 t₁ = ((disconnect s t₁).1, []) := by
  rcases hws : s.ws with _ | w
  all_goals rcases hca : s.state.stats.connectedAt with _ | c
  all_goals simp [disconnect, clearTimers, updateStatus, hws, hca]

/-! ### Claim C5 -/

/-- C5: on a transport close event — with the normal-closure code 1000 the
status becomes DISCONNECTED, both timers are stopped and no reconnect is
scheduled; with any other code, if the attempt count is below
maxReconnectAttempts the status becomes RECONNECTING and a reconnect is
scheduled, and once the attempt count has reached the maximum no reconnect is
scheduled and the status remains DISCONNECTED. -/
theorem c5_close_transitions (s : Manager) (code now : ℕ) (jitter : ℚ) :
    (code = 1000 →
      (handleClose s code now jitter).state.status = ConnectionStatus.DISCONNECTED
      ∧ (handleClose s code now jitter).reconnectTimer = none
      ∧ (handleClose s code now jitter).heartbeatTimer = none)
    ∧ (code ≠ 1000 → s.reconnectAttempts < s.config.maxReconnectAttempts →
      (handleClose s code now jitter).state.status = ConnectionStatus.RECONNECTING
      ∧ (handleClose s code now jitter).reconnectTimer
          = some (calculateReconnectDelay s.config.reconnectInterval
              s.reconnectAttempts jitter)
      ∧ (handleClose s code now jitter).heartbeatTimer = none)
    ∧ (code ≠ 1000 → s.config.maxReconnectAttempts ≤ s.reconnectAttempts →
      (handleClose s code now jitter).state.status = ConnectionStatus.DISCONNECTED
      ∧ (handleClose s code now jitter).reconnectTimer = none
      ∧ (handleClose s code now jitter).heartbeatTimer = none) := by
  refine ⟨?_, ?_, ?_⟩
  · intro h
    simp [handleClose, clearTimers, updateStatus, h]
  · intro h h'
    simp [handleClose, clearTimers, updateStatus, scheduleReconnect, shouldReconnect, h, h']
  · intro h h'
    simp [handleClose, clearTimers, updateStatus, scheduleReconnect, shouldReconnect, h,
      Nat.not_lt.mpr h']

theorem c5_close_transitions_witness :
    (handleClose openManager 1006 9 0).state.status = ConnectionStatus.RECONNECTING
    ∧ (handleClose openManager 1000 9 0).state.status = ConnectionStatus.DISCONNECTED
    ∧ (handleClose { openManager with reconnectAttempts := 3 } 1006 9 0).state.status
        = ConnectionStatus.DISCONNECTED := by
  refine ⟨?_, ?_, ?_⟩
  · exact ((c5_close_transitions openManager 1006 9 0).2.1 (by decide) (by decide)).1
  · exact ((c5_close_transitions openManager 1000 9 0).1 rfl).1
  · exact ((c5_close_transitions { openManager with reconnectAttempts := 3 } 1006 9 0).2.2
      (by decide) (by decide)).1

/-! ### Claim C2 -/

/-- C2 counterexample: on a manager that is already connected (status
CONNECTED, transport open), calling connect() is not a no-op — the status
leaves CONNECTED (to CONNECTING) and the transport handle is replaced. -/
theorem c2_counterexample :
    openManager.state.status = ConnectionStatus.CONNECTED
    ∧ openManager.isConnected = true
    ∧ (connectStart openManager 5 true).state.status ≠ ConnectionStatus.CONNECTED
    ∧ (connectStart openManager 5 true).ws ≠ openManager.ws := by
  decide

/-- C2 (amended): calling connect() while already connected is not a no-op —
it moves the status to CONNECTING and replaces the transport with a fresh
connecting socket (the previous open socket is discarded without being
closed); the subscription registry, outbound queue and handler registry are
untouched. -/
theorem c2_connect_not_noop (s : Manager) (w : WsSocket) (now : ℕ)
    (hst : s.state.status = ConnectionStatus.CONNECTED)
    (hws : s.ws = some w) (hopen : w.readyState = WsReadyState.OPEN) :
    (connectStart s now true).state.status = ConnectionStatus.CONNECTING
    ∧ (connectStart s now true).ws
        = some { url := buildConnectionUrl s.config
                 readyState := WsReadyState.CONNECTING
                 sent := [] }
    ∧ (connectStart s now true).ws ≠ s.ws
    ∧ (connectStart s now true).state.subscriptions = s.state.subscriptions
    ∧ (connectStart s now true).messageQueue = s.messageQueue
    ∧ (connectStart s now true).messageHandlers = s.messageHandlers := by
  refine ⟨?_, ?_, ?_, ?_, ?_, ?_⟩
  · simp [connectStart, updateStatus]
  · simp [connectStart, updateStatus]
  · simp only [connectStart, updateStatus, if_pos]
    rw [hws]
    simp only [ne_eq, Option.some.injEq]
    intro hcontra
    rw [← hcontra] at hopen
    simp at hopen
  · simp [connectStart, updateStatus]
  · simp [connectStart, updateStatus]
  · simp [connectStart, updateStatus]

theorem c2_connect_not_noop_witness :
    (openManager.state.status = ConnectionStatus.CONNECTED
      ∧ openManager.ws = some openSocket
      ∧ openSocket.readyState = WsReadyState.OPEN)
    ∧ (connectStart openManager 5 true).state.status = ConnectionStatus.CONNECTING
    ∧ (connectStart openManager 5 true).ws ≠ openManager.ws := by
  refine ⟨⟨by decide, by decide, by decide⟩, ?_, ?_⟩
  · exact (c2_connect_not_noop openManager openSocket 5 (by decide) (by decide) (by decide)).1
  · exact (c2_connect_not_noop openManager openSocket 5
      (by decide) (by decide) (by decide)).2.2.1

/-! ### Claim C3 -/

/-- C3 counterexample: on a connected manager whose transport send throws,
subscribe() rejects and the subscription is NOT recorded in the registry —
recording is not independent of send success/failure (the `await
sendMessage` precedes the registry insertion, so a rejection aborts it). -/
theorem c3_counterexample :
    openManager.isConnected = true
    ∧ (subscribe openManager { channel := "ch" } 5 false).2 = Except.error ()
    ∧ mapGet (subscribe openManager { channel := "ch" } 5 false).1.state.subscriptions
        "sub_0" = none
    ∧ (subscribe openManager { channel := "ch" } 5 false).1.state.subscriptions = [] := by
  exact ⟨rfl, rfl, rfl, rfl⟩

/-- C3 (amended): subscribe(request) generates a fresh subscription id and a
SUBSCRIBE envelope carrying that id and the request's channel. When the send
attempt does not throw — i.e. it is transmitted on an open transport, or
queued because the connection is not open — the subscription is recorded as
active in the registry and the id is returned. When the transport send
throws, subscribe rejects with that error and the subscription is NOT
recorded. -/
theorem c3_subscribe (s : Manager) (request : SubscriptionRequest) (now : ℕ) :
    (∀ w, s.ws = some w → w.readyState = WsReadyState.OPEN →
      (subscribe s request now true).2 = Except.ok (generateSubscriptionId s.subCounter)
      ∧ mapGet (subscribe s request now true).1.state.subscriptions
          (generateSubscriptionId s.subCounter)
          = some { id := generateSubscriptionId s.subCounter
                   channel := request.channel
                   active := true
                   createdAt := now
                   messageCount := 0
                   errorCount := 0 }
      ∧ (subscribe s request now true).1.ws
          = some { w with sent := w.sent ++
              [{ id := generateMessageId s.msgCounter
                 type := MessageType.SUBSCRIBE
                 timestamp := now
                 payload := { subscriptionId := some (generateSubscriptionId s.subCounter)
                              channel := some request.channel } }] })
    ∧ (s.isConnected = false → ∀ ok,
      (subscribe s request now ok).2 = Except.ok (generateSubscriptionId s.subCounter)
      ∧ mapGet (subscribe s request now ok).1.state.subscriptions
          (generateSubscriptionId s.subCounter)
          = some { id := generateSubscriptionId s.subCounter
                   channel := request.channel
                   active := true
                   createdAt := now
                   messageCount := 0
                   errorCount := 0 }
      ∧ (subscribe s request now ok).1.messageQueue
          = queueMessage s.config.messageQueueSize s.messageQueue
              { id := generateMessageId s.msgCounter
                type := MessageType.SUBSCRIBE
                timestamp := now
                payload := { subscriptionId := some (generateSubscriptionId s.subCounter)
                             channel := some request.channel } })
    ∧ (∀ w, s.ws = some w → w.readyState = WsReadyState.OPEN →
      (subscribe s request now false).2 = Except.error ()
      ∧ (subscribe s request now false).1.state.subscriptions
          = s.state.subscriptions) := by
  refine ⟨?_, ?_, ?_⟩
  · intro w hws hopen
    refine ⟨?_, ?_, ?_⟩ <;>
      simp [subscribe, sendMessage, hws, hopen, mapGet_mapSet_self]
  · intro hconn ok
    rcases hws : s.ws with _ | w
    · refine ⟨?_, ?_, ?_⟩ <;>
        simp [subscribe, sendMessage, hws, mapGet_mapSet_self]
    · have hno : ¬ w.readyState = WsReadyState.OPEN := by
        simpa [Manager.isConnected, hws] using hconn
      refine ⟨?_, ?_, ?_⟩ <;>
        simp [subscribe, sendMessage, hws, hno, mapGet_mapSet_self]
  · intro w hws hopen
    refine ⟨?_, ?_⟩ <;> simp [subscribe, sendMessage, hws, hopen]

theorem c3_subscribe_witness :
    (testManager.isConnected = false
      ∧ openManager.ws = some openSocket
      ∧ openSocket.readyState = WsReadyState.OPEN)
    ∧ (subscribe testManager { channel := "ch" } 5 true).2
        = Except.ok (generateSubscriptionId testManager.subCounter)
    ∧ (subscribe openManager { channel := "ch" } 5 true).2
        = Except.ok (generateSubscriptionId openManager.subCounter) := by
  refine ⟨⟨by decide, by decide, by decide⟩, ?_, ?_⟩
  · exact ((c3_subscribe testManager { channel := "ch" } 5).2.1 (by decide) true).1
  · exact ((c3_subscribe openManager { channel := "ch" } 5).1 openSocket
      (by decide) (by decide)).1

/-! ### Claim C9 -/

/-- C9 counterexample: on a connected manager holding subscription "sub_0",
an unsubscribe("sub_0") whose transport send throws fails with the propagated
send error (not NotFound) and leaves the subscription in the registry — so
"when the id is present, it ... removes it from the registry" does not hold
unconditionally, and NotFound is not the only failure that propagates. -/
theorem c9_counterexample :
    mapGet subManager.state.subscriptions "sub_0" ≠ none
    ∧ (unsubscribe subManager "sub_0" 6 false).2 = some UnsubFail.sendFailed
    ∧ mapGet (unsubscribe subManager "sub_0" 6 false).1.state.subscriptions
        "sub_0" ≠ none := by
  decide

/-- C9 (amended): unsubscribe(id) fails with NotFound if and only if the id
is absent from the registry, and in that case the state is unchanged. When
the id is present, it first awaits the UNSUBSCRIBE send: if that send does
not throw (transmitted on an open transport, or queued while disconnected),
the subscription is marked inactive and removed from the registry; if the
transport send throws, that error (not NotFound) propagates and the registry
is left unchanged. -/
theorem c9_unsubscribe (s : Manager) (sid : String) (now : ℕ) :
    (∀ ok, mapGet s.state.subscriptions sid = none →
      unsubscribe s sid now ok = (s, some (UnsubFail.notFound sid)))
    ∧ (∀ ok sub x, mapGet s.state.subscriptions sid = some sub →
        (unsubscribe s sid now ok).2 ≠ some (UnsubFail.notFound x))
    ∧ (∀ sub, mapGet s.state.subscriptions sid = some sub →
        (s.state.subscriptions.map Prod.fst).Nodup →
        ∀ w, s.ws = some w → w.readyState = WsReadyState.OPEN →
        (unsubscribe s sid now true).2 = none
        ∧ mapGet (unsubscribe s sid now true).1.state.subscriptions sid = none
        ∧ (unsubscribe s sid now true).1.ws
            = some { w with sent := w.sent ++
                [{ id := generateMessageId s.msgCounter
                   type := MessageType.UNSUBSCRIBE
                   timestamp := now
                   payload := { subscriptionId := some sid } }] })
    ∧ (∀ sub w, mapGet s.state.subscriptions sid = some sub →
        s.ws = some w → w.readyState = WsReadyState.OPEN →
        (unsubscribe s sid now false).2 = some UnsubFail.sendFailed
        ∧ (unsubscribe s sid now false).1.state.subscriptions = s.state.subscriptions)
    ∧ (∀ sub, mapGet s.state.subscriptions sid = some sub →
        (s.state.subscriptions.map Prod.fst).Nodup →
        s.ws = none → ∀ ok,
        (unsubscribe s sid now ok).2 = none
        ∧ mapGet (unsubscribe s sid now ok).1.state.subscriptions sid = none) := by
  refine ⟨?_, ?_, ?_, ?_, ?_⟩
  · intro ok h
    simp [unsubscribe, h]
  · intro ok sub x h
    simp only [unsubscribe, h]
    split <;> simp
  · intro sub h hnd w hws hopen
    have hdel : mapGet (mapDelete (mapSet s.state.subscriptions sid
        { sub with active := false }) sid) sid = none :=
      mapGet_mapDelete_self _ sid (mapSet_keys_nodup _ sid _ hnd)
    refine ⟨?_, ?_, ?_⟩ <;>
      simp [unsubscribe, h, sendMessage, hws, hopen, hdel]
  · intro sub w h hws hopen
    refine ⟨?_, ?_⟩ <;> simp [unsubscribe, h, sendMessage, hws, hopen]
  · intro sub h hnd hws ok
    have hdel : mapGet (mapDelete (mapSet s.state.subscriptions sid
        { sub with active := false }) sid) sid = none :=
      mapGet_mapDelete_self _ sid (mapSet_keys_nodup _ sid _ hnd)
    refine ⟨?_, ?_⟩ <;> simp [unsubscribe, h, sendMessage, hws, hdel]

/-- The registry record created by `subManager`'s subscribe call. -/
def subRecord : SubscriptionState :=
  { id := "sub_0", channel := "ch", active := true, createdAt := 5,
    messageCount := 0, errorCount := 0 }

theorem c9_unsubscribe_witness :
    (mapGet subManager.state.subscriptions "sub_0" = some subRecord
      ∧ (subManager.state.subscriptions.map Prod.fst).Nodup
      ∧ subManager.ws = some subSocket)
    ∧ (unsubscribe subManager "sub_0" 6 true).2 = none
    ∧ mapGet (unsubscribe subManager "sub_0" 6 true).1.state.subscriptions
        "sub_0" = none
    ∧ (unsubscribe subManager "nope" 6 true).2 = some (UnsubFail.notFound "nope") := by
  have h := (c9_unsubscribe subManager "sub_0" 6).2.2.1 subRecord (by decide) (by decide)
    subSocket (by decide) (by decide)
  have h0 := (c9_unsubscribe subManager "nope" 6).1 true (by decide)
  refine ⟨⟨by decide, by decide, by decide⟩, h.1, h.2.1, ?_⟩
  rw [h0]

/-! ### Claim C1 -/

theorem noteSubscriptionActivity_messageHandlers (s : Manager) (x : Option String)
    (now : ℕ) : (noteSubscriptionActivity s x now).messageHandlers = s.messageHandlers := by
  unfold noteSubscriptionActivity
  rcases x with _ | sid
  · rfl
  · rcases h : mapGet s.state.subscriptions sid with _ | sub <;> simp [h]

theorem noteSubscriptionActivity_stats (s : Manager) (x : Option String) (now : ℕ) :
    (noteSubscriptionActivity s x now).state.stats = s.state.stats := by
  unfold noteSubscriptionActivity
  rcases x with _ | sid
  · rfl
  · rcases h : mapGet s.state.subscriptions sid with _ | sub <;> simp [h]

/-- C1 counterexample: with two handlers registered in order for DATA, the
first of which throws, dispatching a DATA envelope invokes the first handler
but never the second — the forEach loop is aborted by the exception, which is
only caught by handleMessage's outer try/catch. -/
theorem c1_counterexample :
    (handleMessage handlerManager { data := some dataMsg, length := 10 } 8 true).2.count
        (Event.invokedUser 2 dataMsg) = 0
    ∧ (handleMessage handlerManager { data := some dataMsg, length := 10 } 8 true).2.count
        (Event.invokedUser 1 dataMsg) = 1 := by
  decide

/-- C1 (amended): when the first of two handlers registered (in order) for an
envelope's type throws, the second handler is NOT invoked — the dispatch loop
aborts and the exception is swallowed by handleMessage's single surrounding
try/catch (logged to the console). The statistics updated by the dispatch path
before handler invocation (messagesReceived, bytesReceived) are preserved and
not corrupted by the throw. -/
theorem c1_dispatch_abort (s : Manager) (m : WebSocketMessage) (len now : ℕ)
    (ok : Bool) (uid₁ uid₂ : ℕ) (rest : List Handler)
    (hh : mapGet s.messageHandlers m.type
        = some (Handler.user uid₁ true :: Handler.user uid₂ false :: rest)) :
    (handleMessage s { data := some m, length := len } now ok).2
      = [Event.invokedUser uid₁ m, Event.consoleError "Error handling message"]
    ∧ (handleMessage s { data := some m, length := len } now ok).1.state.stats.messagesReceived
        = s.state.stats.messagesReceived + 1
    ∧ (handleMessage s { data := some m, length := len } now ok).1.state.stats.bytesReceived
        = s.state.stats.bytesReceived + len := by
  refine ⟨?_, ?_, ?_⟩ <;>
    simp [handleMessage, noteSubscriptionActivity_messageHandlers,
      noteSubscriptionActivity_stats, hh, dispatchHandlers, runHandler]

theorem c1_dispatch_abort_witness :
    mapGet handlerManager.messageHandlers dataMsg.type
        = some [Handler.user 1 true, Handler.user 2 false]
    ∧ (handleMessage handlerManager { data := some dataMsg, length := 10 } 8 true).2
        = [Event.invokedUser 1 dataMsg, Event.consoleError "Error handling message"]
    ∧ (handleMessage handlerManager
          { data := some dataMsg, length := 10 } 8 true).1.state.stats.messagesReceived
        = handlerManager.state.stats.messagesReceived + 1 := by
  have h := c1_dispatch_abort handlerManager dataMsg 10 8 true 1 2 [] (by decide)
  exact ⟨by decide, h.1, h.2.1⟩

/-! ### Claim C10 -/

theorem sendPing_open_pong (s : Manager) (w : WsSocket) (t : ℕ)
    (hws : s.ws = some w) (hopen : w.readyState = WsReadyState.OPEN) :
    (mapGet (sendPing s t true).messageHandlers MessageType.PONG).getD []
      = (mapGet s.messageHandlers MessageType.PONG).getD [] ++ [Handler.latency t]
    ∧ (sendPing s t true).ws
      = some { w with sent := w.sent ++
          [{ id := generateMessageId s.msgCounter
             type := MessageType.PING
             timestamp := t
             payload := { timestamp := some t } }] } := by
  constructor <;> simp [sendPing, sendMessage, onMessage, hws, hopen, mapGet_mapSet_self]

theorem sendPings_open (times : List ℕ) :
    ∀ (s : Manager) (w : WsSocket), s.ws = some w → w.readyState = WsReadyState.OPEN →
      (mapGet (sendPings s times).messageHandlers MessageType.PONG).getD []
        = (mapGet s.messageHandlers MessageType.PONG).getD [] ++ times.map Handler.latency
      ∧ ∃ w', (sendPings s times).ws = some w' ∧ w'.readyState = WsReadyState.OPEN := by
  induction times with
  | nil =>
    intro s w hws hopen
    exact ⟨by simp [sendPings], w, hws, hopen⟩
  | cons t rest ih =>
    intro s w hws hopen
    have hp := sendPing_open_pong s w t hws hopen
    have hih := ih (sendPing s t true) _ hp.2 hopen
    refine ⟨?_, hih.2⟩
    show (mapGet (sendPings (sendPing s t true) rest).messageHandlers MessageType.PONG).getD []
        = _
    rw [hih.1, hp.1]
    simp

theorem dispatchHandlers_latency (ts : List ℕ) :
    ∀ (s : Manager) (m : WebSocketMessage) (now : ℕ) (ok : Bool),
      (dispatchHandlers s (ts.map Handler.latency) m now ok).2.2 = false
      ∧ (dispatchHandlers s (ts.map Handler.latency) m now ok).2.1 = []
      ∧ ∀ h : ts ≠ [],
          (dispatchHandlers s (ts.map Handler.latency) m now ok).1.state.stats.latency
            = (now : ℤ) - (ts.getLast h : ℤ) := by
  induction ts with
  | nil =>
    intro s m now ok
    exact ⟨rfl, rfl, fun h => absurd rfl h⟩
  | cons t rest ih =>
    intro s m now ok
    have hih := ih
      { s with state := { s.state with stats := { s.state.stats with
          latency := (now : ℤ) - (t : ℤ) } } } m now ok
    cases rest with
    | nil =>
      refine ⟨rfl, rfl, fun h => ?_⟩
      show ({ s with state := { s.state with stats := { s.state.stats with
          latency := (now : ℤ) - (t : ℤ) } } }).state.stats.latency
        = (now : ℤ) - (([t] : List ℕ).getLast h : ℤ)
      rfl
    | cons t2 r2 =>
      refine ⟨?_, ?_, fun h => ?_⟩
      · show (dispatchHandlers
            { s with state := { s.state with stats := { s.state.stats with
                latency := (now : ℤ) - (t : ℤ) } } }
            ((t2 :: r2).map Handler.latency) m now ok).2.2 = false
        exact hih.1
      · show [] ++ (dispatchHandlers
            { s with state := { s.state with stats := { s.state.stats with
                latency := (now : ℤ) - (t : ℤ) } } }
            ((t2 :: r2).map Handler.latency) m now ok).2.1 = []
        rw [hih.2.1]
        rfl
      · show (dispatchHandlers
            { s with state := { s.state with stats := { s.state.stats with
                latency := (now : ℤ) - (t : ℤ) } } }
            ((t2 :: r2).map Handler.latency) m now ok).1.state.stats.latency
          = (now : ℤ) - ((t :: t2 :: r2).getLast h : ℤ)
        exact hih.2.2 (List.cons_ne_nil t2 r2)

theorem dispatchLatencyThrew (ts : List ℕ) :
    ∀ (s : Manager) (m : WebSocketMessage) (now : ℕ) (ok : Bool),
      (dispatchHandlers s (ts.map Handler.latency) m now ok).2.2 = false :=
  fun s m now ok => (dispatchHandlers_latency ts s m now ok).1

theorem dispatchLatencyLat (ts : List ℕ) (hne : ts ≠ []) :
    ∀ (s : Manager) (m : WebSocketMessage) (now : ℕ) (ok : Bool),
      (dispatchHandlers s (ts.map Handler.latency) m now ok).1.state.stats.latency
        = (now : ℤ) - (ts.getLast hne : ℤ) :=
  fun s m now ok => (dispatchHandlers_latency ts s m now ok).2.2 hne

/-- C10: after n heartbeat PINGs have been sent successfully since
construction (on an open transport, starting from the constructor's handler
registry, which registers no PONG handler), the PONG handler list holds
exactly the n latency closures added by sendPing, in ping order (none is ever
removed); a single inbound PONG runs all of them and leaves
`stats.latency = now - pingTime` of the most recent ping, the last closure to
run. -/
theorem c10_pong_latency (s : Manager) (w : WsSocket) (times : List ℕ)
    (now len : ℕ) (pong : WebSocketMessage)
    (hws : s.ws = some w) (hopen : w.readyState = WsReadyState.OPEN)
    (hnone : mapGet s.messageHandlers MessageType.PONG = none)
    (htype : pong.type = MessageType.PONG)
    (hsid : pong.payload.subscriptionId = none)
    (hne : times ≠ []) :
    (mapGet (sendPings s times).messageHandlers MessageType.PONG).getD []
      = times.map Handler.latency
    ∧ (handleMessage (sendPings s times)
          { data := some pong, length := len } now true).1.state.stats.latency
      = (now : ℤ) - (times.getLast hne : ℤ) := by
  obtain ⟨h1, w', hw', hopen'⟩ := sendPings_open times s w hws hopen
  have h1' : (mapGet (sendPings s times).messageHandlers MessageType.PONG).getD []
      = times.map Handler.latency := by
    rw [h1, hnone]
    rfl
  refine ⟨h1', ?_⟩
  simp only [handleMessage, hsid, htype, noteSubscriptionActivity]
  rw [h1']
  simp only [dispatchLatencyThrew, Bool.false_eq_true, if_false, reduceCtorEq, reduceIte]
  rw [dispatchLatencyLat times hne]

theorem c10_pong_latency_witness :
    (openManager.ws = some openSocket
      ∧ openSocket.readyState = WsReadyState.OPEN
      ∧ mapGet openManager.messageHandlers MessageType.PONG = none
      ∧ pongEnvelope.type = MessageType.PONG
      ∧ pongEnvelope.payload.subscriptionId = none
      ∧ ([10, 20] : List ℕ) ≠ [])
    ∧ (mapGet (sendPings openManager [10, 20]).messageHandlers MessageType.PONG).getD []
        = [Handler.latency 10, Handler.latency 20]
    ∧ (handleMessage (sendPings openManager [10, 20])
          { data := some pongEnvelope, length := 5 } 26 true).1.state.stats.latency = 6 := by
  have h := c10_pong_latency openManager openSocket [10, 20] 26 5 pongEnvelope
    (by decide) (by decide) (by decide) (by decide) (by decide) (by decide)
  refine ⟨⟨by decide, by decide, by decide, by decide, by decide, by decide⟩, h.1, ?_⟩
  rw [h.2]
  decide

/-! ### Claim C6 -/

theorem flushLoop_open_proj (pending : List WebSocketMessage) :
    ∀ (s : Manager) (i : ℕ), s.isConnected = true →
      (flushLoop s pending (fun _ => true) i).ws
          = s.ws.map (fun w => { w with sent := w.sent ++ pending })
      ∧ (flushLoop s pending (fun _ => true) i).messageQueue = s.messageQueue
      ∧ (flushLoop s pending (fun _ => true) i).state.subscriptions
          = s.state.subscriptions
      ∧ (flushLoop s pending (fun _ => true) i).state.status = s.state.status
      ∧ (flushLoop s pending (fun _ => true) i).state.connected = s.state.connected
      ∧ (flushLoop s pending (fun _ => true) i).state.stats.connectedAt
          = s.state.stats.connectedAt
      ∧ (flushLoop s pending (fun _ => true) i).heartbeatTimer = s.heartbeatTimer
      ∧ (flushLoop s pending (fun _ => true) i).reconnectAttempts
          = s.reconnectAttempts := by
  induction pending with
  | nil =>
    intro s i hconn
    refine ⟨?_, rfl, rfl, rfl, rfl, rfl, rfl, rfl⟩
    rcases hws : s.ws with _ | w
    · simp [flushLoop, hws]
    · obtain ⟨u, r, sl⟩ := w
      simp [flushLoop, hws]
  | cons m rest ih =>
    intro s i hconn
    rcases hws : s.ws with _ | w
    · simp [Manager.isConnected, hws] at hconn
    · have hopen : w.readyState = WsReadyState.OPEN := by
        simpa [Manager.isConnected, hws] using hconn
      have hsend : (sendMessage s m true).1
          = { s with
              ws := some { w with sent := w.sent ++ [m] },
              state := { s.state with stats := { s.state.stats with
                messagesSent := s.state.stats.messagesSent + 1,
                bytesSent := s.state.stats.bytesSent + (serializeMessage m).length } } } := by
        simp [sendMessage, hws, hopen]
      have hconn' : ((sendMessage s m true).1).isConnected = true := by
        rw [hsend]
        simp [Manager.isConnected, hopen]
      have hih := ih (sendMessage s m true).1 (i + 1) hconn'
      refine ⟨?_, ?_, ?_, ?_, ?_, ?_, ?_, ?_⟩
      · show (flushLoop (sendMessage s m true).1 rest (fun _ => true) (i + 1)).ws = _
        rw [hih.1, hsend]
        simp [List.append_assoc]
      · show (flushLoop (sendMessage s m true).1 rest (fun _ => true) (i + 1)).messageQueue = _
        rw [hih.2.1, hsend]
      · show (flushLoop (sendMessage s m true).1 rest (fun _ => true) (i + 1)).state.subscriptions = _
        rw [hih.2.2.1, hsend]
      · show (flushLoop (sendMessage s m true).1 rest (fun _ => true) (i + 1)).state.status = _
        rw [hih.2.2.2.1, hsend]
      · show (flushLoop (sendMessage s m true).1 rest (fun _ => true) (i + 1)).state.connected = _
        rw [hih.2.2.2.2.1, hsend]
      · show (flushLoop (sendMessage s m true).1 rest (fun _ => true) (i + 1)).state.stats.connectedAt = _
        rw [hih.2.2.2.2.2.1, hsend]
      · show (flushLoop (sendMessage s m true).1 rest (fun _ => true) (i + 1)).heartbeatTimer = _
        rw [hih.2.2.2.2.2.2.1, hsend]
      · show (flushLoop (sendMessage s m true).1 rest (fun _ => true) (i + 1)).reconnectAttempts = _
        rw [hih.2.2.2.2.2.2.2, hsend]

theorem flushLoop_ws (pending : List WebSocketMessage) (s : Manager) (i : ℕ)
    (h : s.isConnected = true) :
    (flushLoop s pending (fun _ => true) i).ws
      = s.ws.map (fun w => { w with sent := w.sent ++ pending }) :=
  (flushLoop_open_proj pending s i h).1

theorem flushLoop_queue (pending : List WebSocketMessage) (s : Manager) (i : ℕ)
    (h : s.isConnected = true) :
    (flushLoop s pending (fun _ => true) i).messageQueue = s.messageQueue :=
  (flushLoop_open_proj pending s i h).2.1

theorem flushLoop_subs (pending : List WebSocketMessage) (s : Manager) (i : ℕ)
    (h : s.isConnected = true) :
    (flushLoop s pending (fun _ => true) i).state.subscriptions = s.state.subscriptions :=
  (flushLoop_open_proj pending s i h).2.2.1

theorem flushLoop_status (pending : List WebSocketMessage) (s : Manager) (i : ℕ)
    (h : s.isConnected = true) :
    (flushLoop s pending (fun _ => true) i).state.status = s.state.status :=
  (flushLoop_open_proj pending s i h).2.2.2.1

theorem flushLoop_connected (pending : List WebSocketMessage) (s : Manager) (i : ℕ)
    (h : s.isConnected = true) :
    (flushLoop s pending (fun _ => true) i).state.connected = s.state.connected :=
  (flushLoop_open_proj pending s i h).2.2.2.2.1

theorem flushLoop_connectedAt (pending : List WebSocketMessage) (s : Manager) (i : ℕ)
    (h : s.isConnected = true) :
    (flushLoop s pending (fun _ => true) i).state.stats.connectedAt
      = s.state.stats.connectedAt :=
  (flushLoop_open_proj pending s i h).2.2.2.2.2.1

theorem flushLoop_heartbeat (pending : List WebSocketMessage) (s : Manager) (i : ℕ)
    (h : s.isConnected = true) :
    (flushLoop s pending (fun _ => true) i).heartbeatTimer = s.heartbeatTimer :=
  (flushLoop_open_proj pending s i h).2.2.2.2.2.2.1

theorem flushLoop_reconnectAttempts (pending : List WebSocketMessage) (s : Manager)
    (i : ℕ) (h : s.isConnected = true) :
    (flushLoop s pending (fun _ => true) i).reconnectAttempts = s.reconnectAttempts :=
  (flushLoop_open_proj pending s i h).2.2.2.2.2.2.2

theorem not_mem_keys_of_mapGet_none {κ α : Type} [DecidableEq κ]
    (m : List (κ × α)) (k : κ) (h : mapGet m k = none) : k ∉ m.map Prod.fst := by
  induction m with
  | nil => simp
  | cons hd tl ih =>
    obtain ⟨a, b⟩ := hd
    by_cases hk : a = k
    · simp [mapGet, hk] at h
    · simp only [mapGet, if_neg hk] at h
      intro hmem
      rcases List.mem_cons.mp hmem with h' | h'
      · exact hk h'.symm
      · exact ih h h'

theorem count_resub_zero (l : List (String × SubscriptionState)) (sid ch : String)
    (h : sid ∉ l.map Prod.fst) :
    ((l.filter (fun p => p.2.active)).map (fun p => Event.resub p.1 p.2.channel)).count
      (Event.resub sid ch) = 0 := by
  induction l with
  | nil => rfl
  | cons hd tl ih =>
    obtain ⟨a, b⟩ := hd
    simp only [List.map_cons, List.mem_cons] at h
    push_neg at h
    have hne : ¬ a = sid := fun hh => h.1 hh.symm
    by_cases hb : b.active
    · simp [List.filter_cons, hb, List.count_cons, hne, ih h.2]
    · simp [List.filter_cons, hb, ih h.2]

theorem count_resub_one (l : List (String × SubscriptionState)) (sid : String)
    (sub : SubscriptionState) (hnd : (l.map Prod.fst).Nodup)
    (h : mapGet l sid = some sub) (ha : sub.active = true) :
    ((l.filter (fun p => p.2.active)).map (fun p => Event.resub p.1 p.2.channel)).count
      (Event.resub sid sub.channel) = 1 := by
  induction l with
  | nil => simp [mapGet] at h
  | cons hd tl ih =>
    obtain ⟨a, b⟩ := hd
    simp only [List.map_cons, List.nodup_cons] at hnd
    by_cases hk : a = sid
    · have hb : b = sub := by simpa [mapGet, hk] using h
      subst hb
      have h0 := count_resub_zero tl sid b.channel (hk ▸ hnd.1)
      simp [List.filter_cons, ha, List.count_cons, hk, h0]
    · have h' : mapGet tl sid = some sub := by simpa [mapGet, hk] using h
      have hcount := ih hnd.2 h'
      by_cases hb : b.active
      · simp [List.filter_cons, hb, List.count_cons, hk, hcount]
      · simp [List.filter_cons, hb, hcount]

/-- C6: on a transport open event the manager transitions to CONNECTED, resets
the reconnect-attempt counter to 0, records the connect timestamp, starts the
heartbeat timer, flushes the outbound queue in FIFO order onto the transport,
and emits exactly one resubscription signal per subscription currently marked
active — and none for an id absent from the registry (e.g. unsubscribed before
the disconnect). -/
theorem c6_open_behavior (s : Manager) (w : WsSocket) (now : ℕ)
    (hws : s.ws = some w) (hopen : w.readyState = WsReadyState.OPEN)
    (hnd : (s.state.subscriptions.map Prod.fst).Nodup) :
    (handleOpen s now (fun _ => true)).1.state.status = ConnectionStatus.CONNECTED
    ∧ (handleOpen s now (fun _ => true)).1.state.connected = true
    ∧ (handleOpen s now (fun _ => true)).1.reconnectAttempts = 0
    ∧ (handleOpen s now (fun _ => true)).1.state.stats.connectedAt = some now
    ∧ (handleOpen s now (fun _ => true)).1.heartbeatTimer
        = some s.config.heartbeatInterval
    ∧ (handleOpen s now (fun _ => true)).1.ws
        = some { w with sent := w.sent ++ s.messageQueue }
    ∧ (handleOpen s now (fun _ => true)).1.messageQueue = []
    ∧ (handleOpen s now (fun _ => true)).2
        = Event.consoleLog "WebSocket connected"
          :: (s.state.subscriptions.filter (fun p => p.2.active)).map
              (fun p => Event.resub p.1 p.2.channel)
    ∧ (∀ sid sub, mapGet s.state.subscriptions sid = some sub → sub.active = true →
        (handleOpen s now (fun _ => true)).2.count (Event.resub sid sub.channel) = 1)
    ∧ (∀ sid ch, mapGet s.state.subscriptions sid = none →
        (handleOpen s now (fun _ => true)).2.count (Event.resub sid ch) = 0) := by
  have hevs : (handleOpen s now (fun _ => true)).2
      = Event.consoleLog "WebSocket connected"
        :: (s.state.subscriptions.filter (fun p => p.2.active)).map
            (fun p => Event.resub p.1 p.2.channel) := by
    simp [handleOpen, startHeartbeat, flushMessageQueue, resubscribeAll, flushLoop_subs,
      updateStatus, Manager.isConnected, hws, hopen]
  refine ⟨?_, ?_, ?_, ?_, ?_, ?_, ?_, hevs, ?_, ?_⟩
  · simp [handleOpen, startHeartbeat, flushMessageQueue, flushLoop_status,
      updateStatus, Manager.isConnected, hws, hopen]
  · simp [handleOpen, startHeartbeat, flushMessageQueue, flushLoop_connected,
      updateStatus, Manager.isConnected, hws, hopen]
  · simp [handleOpen, startHeartbeat, flushMessageQueue, flushLoop_reconnectAttempts,
      updateStatus, Manager.isConnected, hws, hopen]
  · simp [handleOpen, startHeartbeat, flushMessageQueue, flushLoop_connectedAt,
      updateStatus, Manager.isConnected, hws, hopen]
  · simp [handleOpen, startHeartbeat, flushMessageQueue, flushLoop_heartbeat,
      updateStatus, Manager.isConnected, hws, hopen]
  · simp [handleOpen, startHeartbeat, flushMessageQueue, flushLoop_ws,
      updateStatus, Manager.isConnected, hws, hopen]
  · simp [handleOpen, startHeartbeat, flushMessageQueue, flushLoop_queue,
      updateStatus, Manager.isConnected, hws, hopen]
  · intro sid sub hsub hact
    rw [hevs]
    have h1 := count_resub_one s.state.subscriptions sid sub hnd hsub hact
    simpa [List.count_cons] using h1
  · intro sid ch hnone
    rw [hevs]
    have h0 := count_resub_zero s.state.subscriptions sid ch
      (not_mem_keys_of_mapGet_none _ _ hnone)
    simpa [List.count_cons] using h0

theorem c6_open_behavior_witness :
    (reopenManager.ws = some subSocket
      ∧ subSocket.readyState = WsReadyState.OPEN
      ∧ (reopenManager.state.subscriptions.map Prod.fst).Nodup)
    ∧ (handleOpen reopenManager 31 (fun _ => true)).1.state.status
        = ConnectionStatus.CONNECTED
    ∧ (handleOpen reopenManager 31 (fun _ => true)).1.reconnectAttempts = 0
    ∧ (handleOpen reopenManager 31 (fun _ => true)).1.ws
        = some { subSocket with sent := subSocket.sent ++ reopenManager.messageQueue }
    ∧ (handleOpen reopenManager 31 (fun _ => true)).2.count
        (Event.resub "sub_0" "ch") = 1 := by
  have h := c6_open_behavior reopenManager subSocket 31 (by decide) (by decide) (by decide)
  refine ⟨⟨by decide, by decide, by decide⟩, h.1, h.2.2.1, h.2.2.2.2.2.1, ?_⟩
  exact h.2.2.2.2.2.2.2.2.1 "sub_0" subRecord (by decide) (by decide)

end ArxWs
